import Mathlib

/-!
Verification of the two translation units of `developer-primer`:
`src/cpp/concepts/main.cc` (constraint vocabulary) and
`src/cpp/coroutines/main.cc` (pull-based generator).

The concepts component is embedded by modelling the set of types occurring
in the translation unit together with the result types of their `*` and `+`
operators; the `Multipliable` concept and the reducers are then defined as
computable functions over that model, clause by clause after the source.

The coroutines component is embedded as the explicit state machine of the
`counter` coroutine: one state per suspension point (initial suspension,
the `co_yield`, the final suspension), with the frame's local variables
(`start`, `end`) and the promise's `mValue` carried as fields.  `resume()`
on a handle that is suspended at the final suspend point is undefined
behaviour, so the step function is partial (`Option`).
-/

namespace Primer

/-! ## Constraint vocabulary (src/cpp/concepts/main.cc) -/

/-- The types that take part in the concept checks of the translation unit:
`int`, `double`, and the instantiations `Stub<nexcept, operatorStar,
validReturnType>` (main.cc lines 30-39). -/
inductive SrcTy where
  | int : SrcTy
  | double : SrcTy
  | stub (nexcept operatorStar validReturnType : Bool) : SrcTy
deriving DecidableEq

/-- `using NoMultiply = Stub<true, false, true>;` (main.cc line 41). -/
def NoMultiply : SrcTy := .stub true false true

/-- `using ValidClass = Stub<true, true, true>;` (main.cc line 42). -/
def ValidClass : SrcTy := .stub true true true

/-- `using NotNoexcept = Stub<false, true, true>;` (main.cc line 43). -/
def NotNoexcept : SrcTy := .stub false true true

/-- `using DifferentReturnType = Stub<true, true, false>;` (main.cc line 44). -/
def DifferentReturnType : SrcTy := .stub true true false

/-- Result type of the binary `*` expression on the translation unit's types,
`none` when the expression is ill-formed.  Built-in `int`/`double`
multiplication follows the usual arithmetic conversions.  `Stub`'s
`operator*` (main.cc lines 32-34) is a member taking `const Stub&` of the
same instantiation, is constrained by `requires(operatorStar &&
validReturnType)`, and returns `Stub&` (the same type). -/
def mulResultSrc : SrcTy → SrcTy → Option SrcTy
  | .int, .int => some .int
  | .int, .double => some .double
  | .double, .int => some .double
  | .double, .double => some .double
  | .stub a b c, .stub a' b' c' =>
      if a == a' && b == b' && c == c' && b && c then some (.stub a b c) else none
  | _, _ => none

/-- Result type of the binary `+` expression on the translation unit's types.
`Stub`'s `operator+` (main.cc lines 36-38) exists under
`requires(operatorStar && not validReturnType)` and returns `int`. -/
def plusResultSrc : SrcTy → SrcTy → Option SrcTy
  | .int, .int => some .int
  | .int, .double => some .double
  | .double, .int => some .double
  | .double, .double => some .double
  | .stub a b c, .stub a' b' c' =>
      if a == a' && b == b' && c == c' && b && !c then some .int else none
  | _, _ => none

/-- A concept such as `Multipliable` is a template: it can be instantiated at
any types of the surrounding program, with whatever `operator*` overloads
that program declares.  An environment packages a universe of types, type
identity (`std::is_same`), and the result type of binary `*`. -/
structure MulEnv where
  Ty : Type
  teq : Ty → Ty → Bool
  mulResult : Ty → Ty → Option Ty

/-- `are_same_v<T, Ts...> = conjunction_v<is_same<T, Ts>...>` (main.cc lines
5-7).  The template has one required parameter, so instantiating it with an
empty pack is ill-formed; inside a requires-clause that reads as an
unsatisfied constraint. -/
def are_same_v (env : MulEnv) : List env.Ty → Bool
  | [] => false
  | t :: ts => ts.all (env.teq t)

/-- Result type of the unary left fold `(... * args)`: `((t₀ * t₁) * t₂) * …`,
`none` when some step is ill-formed.  A one-element fold is the element
itself and applies no operator. -/
def foldMul (env : MulEnv) : env.Ty → List env.Ty → Option env.Ty
  | t, [] => some t
  | t, u :: us =>
      match env.mulResult t u with
      | some r => foldMul env r us
      | none => none

/-- The concept `Multipliable` (main.cc lines 16-21): the requires-expression
demands that `(... * args)` be well-formed, that `are_same_v<Args...>` hold,
and that `sizeof...(Args) > 1`. -/
def Multipliable (env : MulEnv) (ts : List env.Ty) : Bool :=
  (match ts with
   | [] => false
   | t :: rest => (foldMul env t rest).isSome)
  && are_same_v env ts
  && decide (1 < ts.length)

/-- Modelled from the spec: the four-clause reading of `Multipliable`
(spec §3), which additionally demands clause (iv), that the result type of
the fold equal the operand type.  Kept for comparison with the source
concept `Multipliable`, which has no such clause. -/
def MultipliableSpec (env : MulEnv) (ts : List env.Ty) : Bool :=
  (match ts with
   | [] => false
   | t :: rest =>
      match foldMul env t rest with
      | some r => env.teq r t
      | none => false)
  && are_same_v env ts
  && decide (1 < ts.length)

/-- The environment of the translation unit itself. -/
def srcEnv : MulEnv :=
  { Ty := SrcTy
    teq := fun a b => decide (a = b)
    mulResult := mulResultSrc }

/-- Two types a client program may declare: `struct B {};` and
`struct A { B operator*(const A&); };` — `A`'s `*` is well-formed on two
`A` operands but returns the unrelated type `B`. -/
inductive SkewTy where
  | A : SkewTy
  | B : SkewTy
deriving DecidableEq

/-- The `*` overload set of that client program: `A * A` is well-formed and
returns `B`; every other combination is ill-formed. -/
def mulResultSkew : SkewTy → SkewTy → Option SkewTy
  | .A, .A => some .B
  | _, _ => none

/-- The environment of that client program. -/
def skewEnv : MulEnv :=
  { Ty := SkewTy
    teq := fun a b => decide (a = b)
    mulResult := mulResultSkew }

/-- `Add` (main.cc lines 9-13) on a uniform `int` pack: `are_same_v` holds,
and the body returns the left fold `(... + args)`.  An empty pack is
rejected (`are_same_v<>` is ill-formed), hence `none`. -/
def AddInt : List Int → Option Int
  | [] => none
  | v :: vs => some (vs.foldl (· + ·) v)

/-- `Multiply` (main.cc lines 23-27) on a uniform `int` pack: admissible iff
`Multipliable` holds for the argument types, in which case it returns the
left fold `(... * args)`. -/
def MultiplyInt (vs : List Int) : Option Int :=
  if Multipliable srcEnv (vs.map fun _ => SrcTy.int) then
    match vs with
    | [] => none
    | v :: rest => some (rest.foldl (· * ·) v)
  else none

/-- The concept `Integral` (main.cc lines 62-63): true iff the type is a
built-in integral type.  Of the translation unit's types only `int` is. -/
def Integral : SrcTy → Bool
  | .int => true
  | _ => false

/-- `Print` (main.cc lines 64-66): gated on `Integral`, writes its argument.
`Print(14)` instantiates at `int`. -/
def PrintInt (v : Int) : Option Int :=
  if Integral SrcTy.int then some v else none

/-- The lines `main` (main.cc lines 68-78) writes: `Add(1,2,3,4,5)`, then
`Multiply(2,3,4)`, then `Print(14)`, one integer per line. -/
def constraintDemoOut : Option (List Int) :=
  match AddInt [1, 2, 3, 4, 5], MultiplyInt [2, 3, 4], PrintInt 14 with
  | some a, some m, some p => some [a, m, p]
  | _, _, _ => none

/-! ## Lazy generator (src/cpp/coroutines/main.cc) -/

/-- The suspension point at which the `counter` coroutine frame is paused,
together with the frame's local variables `start` and `end` (main.cc lines
49-54): the implicit initial suspension (`initial_suspend`, before the first
statement), the `co_yield` inside the loop, or the final suspension
(`final_suspend`, after `return_void`). -/
inductive ResumePoint where
  | initialSuspend (start stop : Int) : ResumePoint
  | yieldSuspend (start stop : Int) : ResumePoint
  | finalSuspend : ResumePoint
deriving DecidableEq

/-- The observable state of a coroutine frame: its suspension point and the
promise's `mValue` field (main.cc line 7).  `T mValue;` is
default-initialized — for `int` its initial contents are indeterminate, so
the machine is parameterised by the initial contents rather than fixing a
value. -/
structure GenState where
  pt : ResumePoint
  mValue : Int
deriving DecidableEq

/-- `mCoroHdl.done()`: true iff the coroutine is suspended at its final
suspend point (main.cc line 41). -/
def GenState.done (g : GenState) : Bool :=
  match g.pt with
  | .finalSuspend => true
  | _ => false

/-- `mCoroHdl.resume()` on the `counter` body
`while (start < end) { co_yield start; start++; }`:
from the initial suspension, run the loop test; on success assign
`mValue = start` (`yield_value`, main.cc lines 10-13) and suspend at the
yield, otherwise fall through `return_void` to the final suspension.
From the yield, execute `start++`, re-test, and either yield again or
finish.  Resuming a coroutine suspended at its final suspend point is
undefined behaviour, hence `none`. -/
def step : GenState → Option GenState
  | ⟨.initialSuspend s e, v⟩ =>
      if s < e then some ⟨.yieldSuspend s e, s⟩
      else some ⟨.finalSuspend, v⟩
  | ⟨.yieldSuspend s e, v⟩ =>
      if s + 1 < e then some ⟨.yieldSuspend (s + 1) e, s + 1⟩
      else some ⟨.finalSuspend, v⟩
  | ⟨.finalSuspend, _⟩ => none

/-- `T next() { mCoroHdl.resume(); return mCoroHdl.promise().mValue; }`
(main.cc lines 42-45): resume, then read the stored value. -/
def next (g : GenState) : Option (Int × GenState) :=
  (step g).map fun g' => (g'.mValue, g')

/-- `counter(start, end)` (main.cc lines 49-54): `initial_suspend` returns
`suspend_always`, so the frame is created suspended before the first
statement; no producer code has run and `mValue` still holds its
indeterminate initial contents `v0`. -/
def counter (start stop v0 : Int) : GenState :=
  ⟨ResumePoint.initialSuspend start stop, v0⟩

/-- The consumer loop of `main` (main.cc lines 58-60):
`while (!g.done()) { std::cout << g.next() << " "; }` — `done()` is checked
before each `next()`, and every value `next()` returns is written.  `fuel`
bounds the number of iterations so the function is total; with enough fuel
the list returned is exactly the sequence written. -/
def pullLoop : Nat → GenState → List Int
  | 0, _ => []
  | Nat.succ fuel, g =>
      if g.done then []
      else
        match next g with
        | some (v, g') => v :: pullLoop fuel g'
        | none => []

/-- Position of a suspension point in the generator's lifecycle ordering:
initial before yield before final. -/
def rank : ResumePoint → Nat
  | .initialSuspend _ _ => 0
  | .yieldSuspend _ _ => 1
  | .finalSuspend => 2

/-! ## Special-member synthesis for `Generator<T>` (main.cc lines 25-46)

`Generator` declares a converting constructor (line 34) and a destructor
(line 35) and nothing else.  Whether it can be copied or moved is decided by
the C++ implicit special-member rules, which we record as functions of the
set of user-declared members. -/

/-- The special members a class declares, plus whether its non-static data
members are all copyable. -/
structure SpecialMembers where
  userCopyCtor : Bool
  userMoveCtor : Bool
  userCopyAssign : Bool
  userMoveAssign : Bool
  userDtor : Bool
  membersCopyable : Bool

/-- A copy constructor is usable iff the class declares one or the implicit
one is generated and not deleted: the implicit copy constructor is declared
whenever no user copy constructor exists, and is non-deleted when every
member is copyable ([class.copy.ctor]). -/
def copyCtorUsable (c : SpecialMembers) : Bool :=
  c.userCopyCtor || c.membersCopyable

/-- A move constructor exists iff the class declares one, or none of copy
constructor, copy assignment, move assignment, destructor is user-declared
([class.copy.ctor] p8): a user-declared destructor suppresses the implicit
move constructor, and overload resolution for `Generator g2{std::move(g1)}`
then falls back to the copy constructor. -/
def moveCtorDeclared (c : SpecialMembers) : Bool :=
  c.userMoveCtor ||
    (!c.userCopyCtor && !c.userCopyAssign && !c.userMoveAssign && !c.userDtor)

/-- `Generator<int>`: user-declared destructor (main.cc line 35), no other
user-declared special members; its only member `mCoroHdl` is a
`std::coroutine_handle`, which is copyable. -/
def GeneratorMembers : SpecialMembers :=
  ⟨false, false, false, false, true, true⟩

/-- The defaulted copy constructor copies `mCoroHdl` member-wise; the source
handle afterwards. -/
def copyInitSource (src : Option Nat) : Option Nat := src

/-- The destination handle after copy-initialization. -/
def copyInitDest (src : Option Nat) : Option Nat := src

/-- `~Generator() { if (mCoroHdl) mCoroHdl.destroy(); }` (main.cc line 35):
how many times this destructor call destroys a frame. -/
def dtorDestroyCount (h : Option Nat) : Nat :=
  if h.isSome then 1 else 0

/-! ## Helper lemmas -/

/-- A left fold of `Int` multiplication over a list equals the accumulator
times the list's product. -/
theorem foldl_mul_eq_prod (l : List Int) (v : Int) :
    l.foldl (· * ·) v = v * l.prod := by
  induction l generalizing v with
  | nil => simp
  | cons a t ih => rw [List.foldl_cons, ih, List.prod_cons, mul_assoc]

/-- A left fold of `Int` addition over a list equals the accumulator plus the
list's sum. -/
theorem foldl_add_eq_sum (l : List Int) (v : Int) :
    l.foldl (· + ·) v = v + l.sum := by
  induction l generalizing v with
  | nil => simp
  | cons a t ih => rw [List.foldl_cons, ih, List.sum_cons, add_assoc]

/-- The fold of `*` over any all-`int` tail is well-formed with result `int`. -/
theorem foldMul_int_const (l : List Int) :
    foldMul srcEnv SrcTy.int (l.map fun _ => SrcTy.int) = some SrcTy.int := by
  induction l with
  | nil => rfl
  | cons a t ih => simpa [foldMul, srcEnv, mulResultSrc] using ih

/-- In the translation unit, `t * t` is either ill-formed or has result type
`t` itself: no type of the file has a `*` returning an unrelated type. -/
theorem mulResultSrc_diag (t : SrcTy) :
    mulResultSrc t t = none ∨ mulResultSrc t t = some t := by
  rcases t with _ | _ | ⟨a, b, c⟩
  · right; rfl
  · right; rfl
  · cases b <;> cases c <;> simp [mulResultSrc]

/-- Folding `*` over a uniform list of the translation unit's types either
fails or returns the operand type. -/
theorem foldMul_diag : ∀ (rest : List SrcTy) (t : SrcTy), (∀ u ∈ rest, u = t) →
    foldMul srcEnv t rest = none ∨ foldMul srcEnv t rest = some t
  | [], _, _ => Or.inr rfl
  | u :: us, t, h => by
      have hu : u = t := h u (List.mem_cons_self u us)
      subst hu
      rcases mulResultSrc_diag u with hm | hm
      · left; simp [foldMul, srcEnv, hm]
      · have hrec := foldMul_diag us u fun x hx => h x (List.mem_cons_of_mem _ hx)
        simpa [foldMul, srcEnv, hm] using hrec

/-- Over the types of the translation unit the source concept and the spec's
four-clause reading coincide: whenever the uniform fold is well-formed its
result type happens to equal the operand type. -/
theorem mult_eq_spec_on_src (ts : List SrcTy) :
    Multipliable srcEnv ts = MultipliableSpec srcEnv ts := by
  cases ts with
  | nil => rfl
  | cons t rest =>
      cases hs : are_same_v srcEnv (t :: rest) with
      | false => simp [Multipliable, MultipliableSpec, hs]
      | true =>
          have hall : ∀ u ∈ rest, u = t := by
            intro u hu
            have hsall : ∀ x ∈ rest, srcEnv.teq t x = true := by
              simpa [are_same_v, List.all_eq_true] using hs
            exact (of_decide_eq_true (hsall u hu)).symm
          rcases foldMul_diag rest t hall with hf | hf <;>
          · simp only [Multipliable, MultipliableSpec, hf]
            simp [srcEnv]

/-! ## Claim theorems -/

/-- C2 (counterexample): the claim says that for every type whose `*` is
well-formed on two operands but returns an unrelated type, `Multipliable` is
false.  A client type `A` with `B operator*(const A&)` refutes it: `A * A`
is well-formed with the unrelated result type `B`, yet
`Multipliable<A, A>` holds, because the concept never inspects the result
type of the fold. -/
theorem multipliable_unrelated_return_counterexample :
    mulResultSkew SkewTy.A SkewTy.A = some SkewTy.B ∧
    SkewTy.B ≠ SkewTy.A ∧
    Multipliable skewEnv [SkewTy.A, SkewTy.A] = true := by decide

/-- C2 (amended): the source concept `Multipliable` checks exactly three
clauses — identical argument types, at least two arguments, and
well-formedness of the left-fold `*` expression — with no requirement on
the result type of the reduction.  Over the types declared in the
translation unit the three-clause concept happens to coincide with the
spec's four-clause reading, because the only stub without a matching
return type (`DifferentReturnType`) declares no `*` operator at all; a
type with a `*` returning an unrelated type separates the two. -/
theorem multipliable_has_no_return_type_clause :
    (∀ ts : List SrcTy, Multipliable srcEnv ts = MultipliableSpec srcEnv ts) ∧
    Multipliable skewEnv [SkewTy.A, SkewTy.A] = true ∧
    MultipliableSpec skewEnv [SkewTy.A, SkewTy.A] = false ∧
    mulResultSrc DifferentReturnType DifferentReturnType = none :=
  ⟨mult_eq_spec_on_src, by decide, by decide, by decide⟩

/-- C6: a uniform `int` pack of length at least two satisfies `Multipliable`,
and `Multiply` returns the left-fold product, which equals the mathematical
product of the arguments. -/
theorem multiply_uniform_int_pack (vs : List Int) (h : 2 ≤ vs.length) :
    Multipliable srcEnv (vs.map fun _ => SrcTy.int) = true ∧
    MultiplyInt vs = some vs.prod := by
  obtain ⟨v, rest, rfl⟩ : ∃ v rest, vs = v :: rest := by
    cases vs with
    | nil => simp at h
    | cons v rest => exact ⟨v, rest, rfl⟩
  simp only [List.length_cons] at h
  have hfold := foldMul_int_const rest
  have hsame : are_same_v srcEnv (SrcTy.int :: rest.map fun _ => SrcTy.int) = true := by
    simp [are_same_v, srcEnv, List.all_eq_true]
  have hMul : Multipliable srcEnv ((v :: rest).map fun _ => SrcTy.int) = true := by
    simp only [List.map_cons, Multipliable, hfold, hsame, Option.isSome_some,
      Bool.true_and, Bool.and_true, List.length_cons, List.length_map,
      decide_eq_true_eq]
    omega
  refine ⟨hMul, ?_⟩
  have hstep : MultiplyInt (v :: rest) = some (rest.foldl (· * ·) v) := by
    simp only [MultiplyInt, hMul]
    rfl
  rw [hstep, foldl_mul_eq_prod, List.prod_cons]

/-- C6 (witness): `Multiply(2, 3, 4)` is admissible and returns `24`. -/
theorem multiply_uniform_int_pack_witness :
    Multipliable srcEnv (([2, 3, 4] : List Int).map fun _ => SrcTy.int) = true ∧
    MultiplyInt [2, 3, 4] = some 24 := by
  have h := multiply_uniform_int_pack [2, 3, 4] (by decide)
  exact ⟨h.1, h.2.trans (by decide)⟩

/-- C7: the scalar cases — `Multipliable<int, int>` is true,
`Multipliable<int, double>` is false (mixed types), `Multipliable<int>` is
false (arity one), and the constrained `Multiply` is inadmissible on a
single argument: the rejection happens in the static predicate, not at run
time. -/
theorem multipliable_scalar_cases :
    Multipliable srcEnv [SrcTy.int, SrcTy.int] = true ∧
    Multipliable srcEnv [SrcTy.int, SrcTy.double] = false ∧
    Multipliable srcEnv [SrcTy.int] = false ∧
    MultiplyInt [1] = none := by decide

/-- C8: the four stub configurations evaluate under `Multipliable` exactly
to the tabulated booleans — `NoMultiply` false, `ValidClass` true,
`NotNoexcept` true (`noexcept` is not required), `DifferentReturnType`
false; and `DifferentReturnType`'s declared arithmetic operator indeed
returns the unrelated scalar type `int`. -/
theorem multipliable_stub_matrix :
    Multipliable srcEnv [NoMultiply, NoMultiply] = false ∧
    Multipliable srcEnv [ValidClass, ValidClass] = true ∧
    Multipliable srcEnv [NotNoexcept, NotNoexcept] = true ∧
    Multipliable srcEnv [DifferentReturnType, DifferentReturnType] = false ∧
    plusResultSrc DifferentReturnType DifferentReturnType = some SrcTy.int ∧
    SrcTy.int ≠ DifferentReturnType := by decide

/-- C9: `Add` on one or more uniform `int` arguments returns the left-fold
sum of its arguments, and the constraint demo writes the integers `15`,
`24`, `14`, each on its own line. -/
theorem add_left_fold_and_demo :
    (∀ vs : List Int, vs ≠ [] → AddInt vs = some vs.sum) ∧
    constraintDemoOut = some [15, 24, 14] := by
  constructor
  · intro vs hvs
    cases vs with
    | nil => exact absurd rfl hvs
    | cons v rest => rw [AddInt, foldl_add_eq_sum, List.sum_cons]
  · decide

/-- C9 (witness): `Add(1, 2, 3, 4, 5)` returns `15`. -/
theorem add_left_fold_and_demo_witness :
    AddInt [1, 2, 3, 4, 5] = some 15 :=
  (add_left_fold_and_demo.1 [1, 2, 3, 4, 5] (by decide)).trans (by decide)

/-- C1 (code evaluation): the generator demo's loop over `counter(1, 5)` —
`done()` checked before each `next()`, every returned value written — emits
`1 2 3 4 4`, not `1 2 3 4`: while the producer is suspended at its last
yield `done()` is still false, so the loop makes one more `next()` call,
which runs the producer to the final suspension and returns the stale
stored value `4` a second time.  Holds for every fuel bound of at least 6
and every initial content of `mValue`. -/
theorem generator_demo_writes_last_value_twice (v0 : Int) (extra : Nat) :
    pullLoop (extra + 6) (counter 1 5 v0) = [1, 2, 3, 4, 4] := by
  rfl

/-- C3 (code evaluation): `Generator` declares only a converting constructor
and a destructor, so by the implicit special-member rules its copy
constructor is usable (the `coroutine_handle` member is copyable) and no
move constructor exists (suppressed by the user-declared destructor); a
copy leaves the source handle intact, and destroying source and destination
of a copy destroys the shared frame twice. -/
theorem generator_handle_is_copyable :
    copyCtorUsable GeneratorMembers = true ∧
    moveCtorDeclared GeneratorMembers = false ∧
    copyInitSource (some 0) = some 0 ∧
    dtorDestroyCount (copyInitSource (some 0)) +
      dtorDestroyCount (copyInitDest (some 0)) = 2 := by decide

/-- C4: for `counter(a, a)` the first `next()` already drives the producer to
the final suspension — `done()` is true immediately afterwards, the
returned value is the untouched initial contents of `mValue`, no value in
the (empty) interval `[a, a)` is ever produced, and no further `next()`
returns anything. -/
theorem counter_empty_range (a v0 : Int) :
    GenState.done (counter a a v0) = false ∧
    next (counter a a v0) = some (v0, ⟨ResumePoint.finalSuspend, v0⟩) ∧
    GenState.done ⟨ResumePoint.finalSuspend, v0⟩ = true ∧
    next ⟨ResumePoint.finalSuspend, v0⟩ = none ∧
    ¬ (a ≤ v0 ∧ v0 < a) := by
  refine ⟨rfl, ?_, rfl, rfl, by omega⟩
  simp [next, counter, step]

/-- C5: the generator follows the three-state machine monotonically — on
creation it is initial-suspended with `done()` false, the locals holding
the arguments and no producer code run; every `resume` from a non-final
state lands in a yield- or final-suspended state and never decreases the
lifecycle rank; and from the final state (where `done()` is true) no
transition exists at all, so `done()` can never revert. -/
theorem generator_state_machine :
    (∀ a b v0 : Int, (counter a b v0).pt = ResumePoint.initialSuspend a b ∧
        (counter a b v0).mValue = v0 ∧
        GenState.done (counter a b v0) = false) ∧
    (∀ g g' : GenState, step g = some g' →
        rank g.pt ≤ rank g'.pt ∧ 1 ≤ rank g'.pt ∧ GenState.done g = false) ∧
    (∀ g : GenState, GenState.done g = true → step g = none) := by
  refine ⟨fun a b v0 => ⟨rfl, rfl, rfl⟩, ?_, ?_⟩
  · rintro ⟨pt, v⟩ g' h
    cases pt with
    | initialSuspend s e =>
        rw [step] at h
        split at h <;>
          (injection h with h'; subst h';
           exact ⟨by simp [rank], by simp [rank], rfl⟩)
    | yieldSuspend s e =>
        rw [step] at h
        split at h <;>
          (injection h with h'; subst h';
           exact ⟨by simp [rank], by simp [rank], rfl⟩)
    | finalSuspend => simp [step] at h
  · rintro ⟨pt, v⟩ h
    cases pt <;> simp_all [GenState.done, step]

/-- C5 (witness): the first resume of `counter(0, 2)` moves the machine from
the initial suspension to a later state of rank at least one, and the final
state has no outgoing transition. -/
theorem generator_state_machine_witness :
    (rank (⟨ResumePoint.initialSuspend 0 2, 0⟩ : GenState).pt ≤
        rank (⟨ResumePoint.yieldSuspend 0 2, 0⟩ : GenState).pt ∧
      1 ≤ rank (⟨ResumePoint.yieldSuspend 0 2, 0⟩ : GenState).pt ∧
      GenState.done ⟨ResumePoint.initialSuspend 0 2, 0⟩ = false) ∧
    step ⟨ResumePoint.finalSuspend, 0⟩ = none :=
  ⟨generator_state_machine.2.1 ⟨ResumePoint.initialSuspend 0 2, 0⟩
      ⟨ResumePoint.yieldSuspend 0 2, 0⟩ (by decide),
   generator_state_machine.2.2 ⟨ResumePoint.finalSuspend, 0⟩ (by decide)⟩

/-- C10: a `next()` taken when no further value remains runs the producer to
the final suspension, after which `done()` is true, and returns the stored
`mValue` unchanged — the last value previously yielded, or the
default-initialized contents if nothing was ever yielded; and no transition
out of the final state exists, so the stored value is never modified after
the final yield. -/
theorem next_after_last_value (s e v : Int) :
    (¬ s < e →
      next ⟨ResumePoint.initialSuspend s e, v⟩ =
        some (v, ⟨ResumePoint.finalSuspend, v⟩)) ∧
    (¬ s + 1 < e →
      next ⟨ResumePoint.yieldSuspend s e, v⟩ =
        some (v, ⟨ResumePoint.finalSuspend, v⟩)) ∧
    GenState.done ⟨ResumePoint.finalSuspend, v⟩ = true ∧
    step ⟨ResumePoint.finalSuspend, v⟩ = none := by
  refine ⟨?_, ?_, rfl, rfl⟩ <;> intro h <;> simp [next, step, h]

/-- C10 (witness): the first `next()` on `counter(7, 7)` with initial
contents `3` finishes the producer and returns `3` unchanged. -/
theorem next_after_last_value_witness :
    next ⟨ResumePoint.initialSuspend 7 7, 3⟩ =
      some (3, ⟨ResumePoint.finalSuspend, 3⟩) :=
  (next_after_last_value 7 7 3).1 (by decide)

end Primer
